import Mathlib

/-!
Shallow embedding of the calculation core of the RetireOnBitcoin repository
(src/src/components/BitcoinRetirementCalculator.jsx): the growth-rate
schedule generator `generateGrowthRates`, the year-by-year projection engine
`calculateProjections`, and the binary-search optimizer
`findOptimalAnnualExpenses`.

Modelling conventions:
* JavaScript numbers are modelled as rationals (ℚ).  All the arithmetic the
  claims are about is exact on the inputs considered.
* `Math.round x` is modelled as `⌊x + 1/2⌋ : ℤ` (JS rounds half toward +∞).
* `Math.max(...xs)` over an empty argument list is `-Infinity` in JS; the
  fold below over `WithBot ℚ` with bottom element `⊥` captures exactly this.
* The JS `||` fallback in `find(...)?.rate || last.rate` treats a found rate
  of `0` as falsy; `lookupGrowthRate` reproduces this.  On an empty schedule
  the JS code would throw a TypeError (`rates[-1]` is `undefined`); the model
  returns `0` there, and every theorem that touches the lookup carries a
  nonempty-schedule hypothesis.
* The JS `inputs.maxLTV || 50` default is `effMaxLTV`.
* The `while (high - low > PRECISION)` loop halves the search interval each
  iteration, so it performs at most `⌈(high-low)/100⌉` iterations (the gap
  after k iterations is exactly the initial gap divided by 2^k, and
  2^k ≥ k).  `solverLoop` is the loop body indexed by that fuel bound; with
  this fuel the loop always reaches its `high - low ≤ PRECISION` exit, so the
  model computes the same value the JS loop does.
* Division by zero is `0` in ℚ while JS produces `Infinity`/`NaN`; the code
  never guards the `totalDebt / startYearPortfolioValue` division, and the
  theorems about that division only ever assert that the denominator is what
  the source makes it (they never exploit the `q / 0 = 0` convention).
-/

/-- One entry of the growth-rate schedule: `{ year, rate }` as pushed by
`generateGrowthRates`. -/
structure GrowthEntry where
  year : ℕ
  rate : ℚ
deriving DecidableEq, Inhabited

/-- The scalar inputs record consumed by `calculateProjections` and
`findOptimalAnnualExpenses` (the fields the source functions read). -/
structure SimulationInputs where
  bitcoinAmount : ℚ
  bitcoinPrice : ℚ
  years : ℕ
  interestRate : ℚ
  inflationRate : ℚ
  annualExpenses : ℚ
  maxLTV : ℚ
  growthRates : List GrowthEntry
deriving DecidableEq, Inhabited

/-- The snapshot object pushed onto `projections` each year.  All monetary
fields and the LTV are stored rounded (`Math.round`), hence `ℤ`; the growth
rate is pushed unrounded. -/
structure YearSnapshot where
  year : ℕ
  growthRate : ℚ
  bitcoinPriceStart : ℤ
  bitcoinPriceEnd : ℤ
  portfolioValue : ℤ
  totalBorrowed : ℤ
  totalInterest : ℤ
  totalDebt : ℤ
  netWorth : ℤ
  ltvRatio : ℤ
  annualExpenses : ℤ
deriving DecidableEq, Inhabited

/-- JavaScript `Math.round`: rounds half toward positive infinity. -/
def jsRound (x : ℚ) : ℤ := ⌊x + 1 / 2⌋

/-- JavaScript `Math.round(x * 100) / 100`: round to two decimal places. -/
def round2 (x : ℚ) : ℚ := (jsRound (x * 100) : ℚ) / 100

/-- `generateGrowthRates(initialRate, terminalRate, years)`: rates decrease
linearly from `initialRate` over a 9-step transition window (years 1..9),
clamped below by `terminalRate`, and are pinned at `terminalRate` from year
10 on; each rate is rounded to 2 decimals before storage. -/
def generateGrowthRates (initialRate terminalRate : ℚ) (years : ℕ) : List GrowthEntry :=
  let transitionYears : ℚ := 9
  let decay : ℚ := (initialRate - terminalRate) / transitionYears
  List.map (fun i =>
    let year : ℕ := i + 1
    let rate : ℚ :=
      if year < 10 then
        max terminalRate (initialRate - decay * ((year : ℚ) - 1))
      else
        terminalRate
    { year := year, rate := round2 rate }) (List.range years)

/-- The rate of the last schedule entry, `rates[rates.length - 1].rate`.
On an empty list the JS expression throws; the model returns 0. -/
def lastRateD (rates : List GrowthEntry) : ℚ :=
  match rates.getLast? with
  | some g => g.rate
  | none => 0

/-- The growth-rate lookup
`inputs.growthRates.find(g => g.year === year)?.rate || last.rate`.
Note the JS `||`: a found rate of `0` is falsy and falls through to the
last entry's rate, exactly as a missing entry does. -/
def lookupGrowthRate (rates : List GrowthEntry) (year : ℕ) : ℚ :=
  match List.find? (fun g => g.year == year) rates with
  | some e => if e.rate = 0 then lastRateD rates else e.rate
  | none => lastRateD rates

/-- The mutable accumulators of the projection loop, as they stand at the
top of an iteration. -/
structure ProjState where
  totalBorrowed : ℚ
  totalInterest : ℚ
  inflatedExpenses : ℚ
  bitcoinValue : ℚ
deriving DecidableEq, Inhabited

/-- One iteration of the projection loop body for year `year`, from state
`s`: returns the updated accumulators and the snapshot pushed this year. -/
def projStep (inputs : SimulationInputs) (year : ℕ) (s : ProjState) :
    ProjState × YearSnapshot :=
  -- First calculate interest on existing debt
  let newInterest := s.totalBorrowed * (inputs.interestRate / 100)
  let totalInterest := s.totalInterest + newInterest
  -- Then add new borrowing
  let totalBorrowed := s.totalBorrowed + s.inflatedExpenses
  -- Get growth rate for this year
  let growthRate := lookupGrowthRate inputs.growthRates year
  -- Apply growth for next year's starting price
  let nextBitcoinValue := s.bitcoinValue * (1 + growthRate / 100)
  -- Calculate portfolio value using end of year price
  let portfolioValue := nextBitcoinValue * inputs.bitcoinAmount
  let totalDebt := totalBorrowed + totalInterest
  let netWorth := portfolioValue - totalDebt
  -- Calculate LTV using beginning of year price
  let startYearPortfolioValue := s.bitcoinValue * inputs.bitcoinAmount
  let ltv := totalDebt / startYearPortfolioValue * 100
  ({ totalBorrowed := totalBorrowed
     totalInterest := totalInterest
     -- Increase expenses by inflation rate for next year
     inflatedExpenses := s.inflatedExpenses * (1 + inputs.inflationRate / 100)
     -- Update bitcoinValue for next iteration
     bitcoinValue := nextBitcoinValue },
   { year := year
     growthRate := growthRate
     bitcoinPriceStart := jsRound s.bitcoinValue
     bitcoinPriceEnd := jsRound nextBitcoinValue
     portfolioValue := jsRound portfolioValue
     totalBorrowed := jsRound totalBorrowed
     totalInterest := jsRound totalInterest
     totalDebt := jsRound totalDebt
     netWorth := jsRound netWorth
     ltvRatio := jsRound ltv
     annualExpenses := jsRound s.inflatedExpenses })

/-- The accumulator state at the top of iteration `i` (0-based): the loop
initialises `totalBorrowed = 0`, `totalInterest = 0`,
`inflatedExpenses = inputs.annualExpenses`, `bitcoinValue = inputs.bitcoinPrice`
and then threads the state through `projStep`. -/
def projStates (inputs : SimulationInputs) : ℕ → ProjState
  | 0 =>
    { totalBorrowed := 0
      totalInterest := 0
      inflatedExpenses := inputs.annualExpenses
      bitcoinValue := inputs.bitcoinPrice }
  | i + 1 => (projStep inputs (i + 1) (projStates inputs i)).1

/-- `calculateProjections(inputs)`: the list of snapshots pushed by the loop
`for (let i = 0; i < inputs.years; i++)`, year `i + 1` computed from the
state after `i` earlier iterations. -/
def calculateProjections (inputs : SimulationInputs) : List YearSnapshot :=
  List.map (fun i => (projStep inputs (i + 1) (projStates inputs i)).2)
    (List.range inputs.years)

/-- `Math.max(...projections.map(p => p.ltvRatio))`, with the empty case
giving `-Infinity`, modelled as `⊥` in `WithBot ℚ`. -/
def maxLtvOfProjections (projs : List YearSnapshot) : WithBot ℚ :=
  List.foldr (fun p m => max ((( YearSnapshot.ltvRatio p : ℤ) : ℚ) : WithBot ℚ) m) ⊥ projs

/-- `const maxLTV = inputs.maxLTV || 50`: a zero (JS-falsy) `maxLTV`
defaults to 50. -/
def effMaxLTV (inputs : SimulationInputs) : ℚ :=
  if inputs.maxLTV = 0 then 50 else inputs.maxLTV

/-- The solver's feasibility test for a candidate expense level `e`:
`maxLTVInProjections <= maxLTV` for the projection run with
`annualExpenses = e`. -/
def FeasibleAt (inputs : SimulationInputs) (e : ℚ) : Prop :=
  maxLtvOfProjections (calculateProjections { inputs with annualExpenses := e })
    ≤ ((effMaxLTV inputs : ℚ) : WithBot ℚ)

instance instDecidableFeasibleAt (inputs : SimulationInputs) (e : ℚ) :
    Decidable (FeasibleAt inputs e) := by
  unfold FeasibleAt
  infer_instance

/-- The binary-search loop `while (high - low > PRECISION)` of
`findOptimalAnnualExpenses`, with `PRECISION = 100`, indexed by a fuel bound
on the number of iterations (see the header: the interval halves each
iteration, so `solverFuel` iterations always reach the exit condition). -/
def solverLoop (inputs : SimulationInputs) : ℕ → ℚ → ℚ → ℚ → ℚ
  | 0, _, _, opt => opt
  | f + 1, low, high, opt =>
    if high - low > 100 then
      let mid := (low + high) / 2
      if FeasibleAt inputs mid then
        solverLoop inputs f mid high mid
      else
        solverLoop inputs f low mid opt
    else
      opt

/-- An iteration bound sufficient for the loop to reach its exit condition:
after `k` iterations the interval is the initial gap over `2^k`, and
`2^fuel ≥ fuel ≥ ⌈gap/100⌉ ≥ gap/100`. -/
def solverFuel (inputs : SimulationInputs) : ℕ :=
  (Int.toNat ⌈inputs.bitcoinPrice * inputs.bitcoinAmount / 100⌉)

/-- `findOptimalAnnualExpenses(inputs)`: binary search for the maximum
annual expense level keeping every year's (rounded) LTV at or below the
target; starts from `low = 0`, `high = bitcoinPrice * bitcoinAmount`,
`optimalExpenses = 0`, and returns `Math.round(optimalExpenses)`. -/
def findOptimalAnnualExpenses (inputs : SimulationInputs) : ℤ :=
  jsRound (solverLoop inputs (solverFuel inputs) 0
    (inputs.bitcoinPrice * inputs.bitcoinAmount) 0)

/-- A throwaway snapshot used as the default of `List.getD`. -/
def dummySnap : YearSnapshot :=
  { year := 0, growthRate := 0, bitcoinPriceStart := 0, bitcoinPriceEnd := 0,
    portfolioValue := 0, totalBorrowed := 0, totalInterest := 0,
    totalDebt := 0, netWorth := 0, ltvRatio := 0, annualExpenses := 0 }

/-- A throwaway schedule entry used as the default of `List.getD`. -/
def dummyEntry : GrowthEntry := { year := 0, rate := 0 }

/-- A small set of valid inputs (one year, a one-entry schedule) used to
instantiate universally quantified theorems. -/
def validInputs : SimulationInputs :=
  { bitcoinAmount := 1, bitcoinPrice := 1000, years := 1, interestRate := 5,
    inflationRate := 2, annualExpenses := 100, maxLTV := 50,
    growthRates := [{ year := 1, rate := 10 }] }

/-- A two-year variant of `validInputs`. -/
def validInputs2 : SimulationInputs :=
  { bitcoinAmount := 1, bitcoinPrice := 1000, years := 2, interestRate := 5,
    inflationRate := 2, annualExpenses := 100, maxLTV := 50,
    growthRates := [{ year := 1, rate := 10 }, { year := 2, rate := 10 }] }

/-- Valid inputs whose initial portfolio value is at most 100 (the solver's
degenerate case: the search loop never runs). -/
def smallPortfolioInputs : SimulationInputs :=
  { bitcoinAmount := 1, bitcoinPrice := 50, years := 1, interestRate := 5,
    inflationRate := 2, annualExpenses := 0, maxLTV := 50,
    growthRates := [{ year := 1, rate := 10 }] }

/-- Inputs violating the stated domain constraints: `bitcoinAmount = 0`
makes every year's LTV denominator zero. -/
def invalidInputs : SimulationInputs :=
  { bitcoinAmount := 0, bitcoinPrice := 100000, years := 1, interestRate := 5,
    inflationRate := 2, annualExpenses := 1000, maxLTV := 50,
    growthRates := [{ year := 1, rate := 10 }] }

/-- Inputs whose schedule has a matching entry for year 1 whose rate is 0,
plus a later entry with a different rate: exercises the JS `||` fallback. -/
def zeroRateScheduleInputs : SimulationInputs :=
  { bitcoinAmount := 1, bitcoinPrice := 100, years := 1, interestRate := 0,
    inflationRate := 0, annualExpenses := 0, maxLTV := 50,
    growthRates := [{ year := 1, rate := 0 }, { year := 2, rate := 50 }] }

/-- Inputs with `years = 0` and an initial portfolio value above 100. -/
def emptyHorizonInputs : SimulationInputs :=
  { bitcoinAmount := 1, bitcoinPrice := 1000, years := 0, interestRate := 0,
    inflationRate := 0, annualExpenses := 0, maxLTV := 50, growthRates := [] }

theorem jsRound_le (x : ℚ) : (jsRound x : ℚ) ≤ x + 1 / 2 := by
  unfold jsRound
  exact Int.floor_le _

theorem jsRound_gt (x : ℚ) : x - 1 / 2 < (jsRound x : ℚ) := by
  unfold jsRound
  have h := Int.sub_one_lt_floor (x + 1 / 2)
  linarith

theorem jsRound_mono {x y : ℚ} (h : x ≤ y) : jsRound x ≤ jsRound y := by
  unfold jsRound
  exact Int.floor_le_floor (by linarith)

theorem jsRound_intCast (m : ℤ) : jsRound (m : ℚ) = m := by
  unfold jsRound
  rw [Int.floor_int_add m (1 / 2 : ℚ)]
  norm_num

theorem jsRound_zero : jsRound 0 = 0 := by
  norm_num [jsRound]

theorem jsRound_add_bound (x y : ℚ) :
    |jsRound (x + y) - (jsRound x + jsRound y)| ≤ 1 := by
  have h1 := jsRound_le (x + y)
  have h2 := jsRound_gt (x + y)
  have h3 := jsRound_le x
  have h4 := jsRound_gt x
  have h5 := jsRound_le y
  have h6 := jsRound_gt y
  have hq : |((jsRound (x + y) - (jsRound x + jsRound y) : ℤ) : ℚ)| < 2 := by
    rw [abs_lt]
    push_cast
    constructor <;> linarith
  have hz : |jsRound (x + y) - (jsRound x + jsRound y)| < 2 := by
    have := hq
    rw [← Int.cast_abs] at this
    exact_mod_cast this
  omega

theorem jsRound_sub_bound (x y : ℚ) :
    |jsRound (x - y) - (jsRound x - jsRound y)| ≤ 1 := by
  have h1 := jsRound_le (x - y)
  have h2 := jsRound_gt (x - y)
  have h3 := jsRound_le x
  have h4 := jsRound_gt x
  have h5 := jsRound_le y
  have h6 := jsRound_gt y
  have hq : |((jsRound (x - y) - (jsRound x - jsRound y) : ℤ) : ℚ)| < 2 := by
    rw [abs_lt]
    push_cast
    constructor <;> linarith
  have hz : |jsRound (x - y) - (jsRound x - jsRound y)| < 2 := by
    have := hq
    rw [← Int.cast_abs] at this
    exact_mod_cast this
  omega

theorem calculateProjections_length (inputs : SimulationInputs) :
    (calculateProjections inputs).length = inputs.years := by
  simp [calculateProjections]

theorem calculateProjections_getD (inputs : SimulationInputs) (i : ℕ)
    (d : YearSnapshot) (h : i < inputs.years) :
    (calculateProjections inputs).getD i d
      = (projStep inputs (i + 1) (projStates inputs i)).2 := by
  unfold calculateProjections
  rw [List.getD_eq_getElem?_getD, List.getElem?_map, List.getElem?_range h]
  rfl

theorem generateGrowthRates_getD (initialRate terminalRate : ℚ) (years i : ℕ)
    (h : i < years) :
    (generateGrowthRates initialRate terminalRate years).getD i dummyEntry
      = { year := i + 1,
          rate := round2 (if i + 1 < 10 then
              max terminalRate
                (initialRate - (initialRate - terminalRate) / 9 * i)
            else terminalRate) } := by
  unfold generateGrowthRates
  rw [List.getD_eq_getElem?_getD, List.getElem?_map, List.getElem?_range h]
  have hy : ((i + 1 : ℕ) : ℚ) - 1 = (i : ℚ) := by push_cast; ring
  simp only [Option.map_some', Option.getD_some, hy]

theorem projStates_nonneg (inputs : SimulationInputs)
    (hF : 0 ≤ inputs.inflationRate) (hE : 0 ≤ inputs.annualExpenses) (i : ℕ) :
    0 ≤ (projStates inputs i).totalBorrowed
      ∧ 0 ≤ (projStates inputs i).inflatedExpenses := by
  induction i with
  | zero => exact ⟨le_refl 0, hE⟩
  | succ i ih =>
    constructor
    · show 0 ≤ (projStates inputs i).totalBorrowed + (projStates inputs i).inflatedExpenses
      linarith [ih.1, ih.2]
    · show 0 ≤ (projStates inputs i).inflatedExpenses * (1 + inputs.inflationRate / 100)
      apply mul_nonneg ih.2
      linarith

/-- Claim C2: in every snapshot, `portfolioValue` is the end-of-year price
`price × (1 + growthRate/100)` times `bitcoinAmount` (rounded at emission),
`bitcoinPriceEnd` is that end-of-year price, while `ltvRatio` is this year's
total debt divided by the start-of-year price times `bitcoinAmount`, times
100 — the LTV denominator uses the start-of-year price, not the end-of-year
price used for `portfolioValue`. -/
theorem snapshot_price_and_ltv_fields (inputs : SimulationInputs) (i : ℕ)
    (d : YearSnapshot) (h : i < inputs.years) :
    ((calculateProjections inputs).getD i d).bitcoinPriceEnd
        = jsRound ((projStates inputs i).bitcoinValue
            * (1 + lookupGrowthRate inputs.growthRates (i + 1) / 100))
    ∧ ((calculateProjections inputs).getD i d).portfolioValue
        = jsRound ((projStates inputs i).bitcoinValue
            * (1 + lookupGrowthRate inputs.growthRates (i + 1) / 100)
            * inputs.bitcoinAmount)
    ∧ YearSnapshot.ltvRatio ((calculateProjections inputs).getD i d)
        = jsRound ((((projStates inputs i).totalBorrowed
                + (projStates inputs i).inflatedExpenses)
              + ((projStates inputs i).totalInterest
                + (projStates inputs i).totalBorrowed * (inputs.interestRate / 100)))
            / ((projStates inputs i).bitcoinValue * inputs.bitcoinAmount) * 100) := by
  rw [calculateProjections_getD inputs i d h]
  exact ⟨rfl, rfl, rfl⟩

/-- Claim C3: each year, interest is accrued on the `totalBorrowed` balance
as it stood before that year's new borrowing is added, and only then is this
year's expense drawn as new principal; consequently the first snapshot's
emitted `totalInterest` is 0. -/
theorem interest_accrues_before_borrowing (inputs : SimulationInputs)
    (d : YearSnapshot) (h : 1 ≤ inputs.years) :
    (∀ i : ℕ,
      (projStates inputs (i + 1)).totalInterest
          = (projStates inputs i).totalInterest
            + (projStates inputs i).totalBorrowed * (inputs.interestRate / 100)
        ∧ (projStates inputs (i + 1)).totalBorrowed
          = (projStates inputs i).totalBorrowed
            + (projStates inputs i).inflatedExpenses)
    ∧ ((calculateProjections inputs).getD 0 d).totalInterest = 0 := by
  constructor
  · intro i
    exact ⟨rfl, rfl⟩
  · rw [calculateProjections_getD inputs 0 d (by omega)]
    show jsRound ((projStates inputs 0).totalInterest
      + (projStates inputs 0).totalBorrowed * (inputs.interestRate / 100)) = 0
    show jsRound (0 + 0 * (inputs.interestRate / 100)) = 0
    rw [show (0 : ℚ) + 0 * (inputs.interestRate / 100) = 0 by ring]
    exact jsRound_zero

/-- Claim C4: on the emitted (independently rounded) fields of every
snapshot, the accounting identities `totalDebt = totalBorrowed + totalInterest`
and `netWorth = portfolioValue - totalDebt` hold within ±1 currency unit. -/
theorem debt_networth_identities_rounded (inputs : SimulationInputs) :
    ∀ snap ∈ calculateProjections inputs,
      |snap.totalDebt - (snap.totalBorrowed + snap.totalInterest)| ≤ 1
      ∧ |snap.netWorth - (snap.portfolioValue - snap.totalDebt)| ≤ 1 := by
  intro snap hmem
  unfold calculateProjections at hmem
  rw [List.mem_map] at hmem
  obtain ⟨i, _, rfl⟩ := hmem
  exact ⟨jsRound_add_bound _ _, jsRound_sub_bound _ _⟩

/-- Claim C5: with nonnegative interest rate, inflation rate and starting
expenses, the emitted `totalBorrowed` and `totalInterest` fields never
decrease from one year's snapshot to the next. -/
theorem borrowed_interest_monotone (inputs : SimulationInputs)
    (hI : 0 ≤ inputs.interestRate) (hF : 0 ≤ inputs.inflationRate)
    (hE : 0 ≤ inputs.annualExpenses) (i : ℕ) (d : YearSnapshot)
    (h : i + 1 < inputs.years) :
    ((calculateProjections inputs).getD i d).totalBorrowed
        ≤ ((calculateProjections inputs).getD (i + 1) d).totalBorrowed
    ∧ ((calculateProjections inputs).getD i d).totalInterest
        ≤ ((calculateProjections inputs).getD (i + 1) d).totalInterest := by
  rw [calculateProjections_getD inputs i d (by omega),
    calculateProjections_getD inputs (i + 1) d h]
  have hn := projStates_nonneg inputs hF hE i
  have hn' := projStates_nonneg inputs hF hE (i + 1)
  have hB : (projStates inputs (i + 1)).totalBorrowed
      = (projStates inputs i).totalBorrowed + (projStates inputs i).inflatedExpenses := rfl
  have hIeq : (projStates inputs (i + 1)).totalInterest
      = (projStates inputs i).totalInterest
        + (projStates inputs i).totalBorrowed * (inputs.interestRate / 100) := rfl
  constructor
  · show jsRound ((projStates inputs i).totalBorrowed + (projStates inputs i).inflatedExpenses)
      ≤ jsRound ((projStates inputs (i + 1)).totalBorrowed
          + (projStates inputs (i + 1)).inflatedExpenses)
    apply jsRound_mono
    rw [hB]
    linarith [hn'.2]
  · show jsRound ((projStates inputs i).totalInterest
        + (projStates inputs i).totalBorrowed * (inputs.interestRate / 100))
      ≤ jsRound ((projStates inputs (i + 1)).totalInterest
          + (projStates inputs (i + 1)).totalBorrowed * (inputs.interestRate / 100))
    apply jsRound_mono
    rw [hIeq]
    have hprod : 0 ≤ (projStates inputs (i + 1)).totalBorrowed * (inputs.interestRate / 100) :=
      mul_nonneg hn'.1 (div_nonneg hI (by norm_num))
    linarith

/-- Claim C6: `generateGrowthRates(60, 15, 20)` yields 20 entries for years
1..20 with rate 60 at year 1 decreasing by 5 per year to 15 at year 10 and
staying 15 through year 20; in general the rate at year `y = i + 1` is
`terminalRate` for `y ≥ 10` and `max(terminalRate, initialRate - decay × (y-1))`
otherwise, rounded to two decimals, with `decay = (initialRate - terminalRate)/9`. -/
theorem growth_schedule_correct :
    ((generateGrowthRates 60 15 20).length = 20
      ∧ (∀ i : ℕ, i < 20 →
          ((generateGrowthRates 60 15 20).getD i dummyEntry).year = i + 1)
      ∧ (∀ i : ℕ, i + 1 < 10 →
          ((generateGrowthRates 60 15 20).getD i dummyEntry).rate = 60 - 5 * (i : ℚ))
      ∧ (∀ i : ℕ, 10 ≤ i + 1 → i < 20 →
          ((generateGrowthRates 60 15 20).getD i dummyEntry).rate = 15))
    ∧ (∀ (initialRate terminalRate : ℚ) (years i : ℕ), i < years →
        (generateGrowthRates initialRate terminalRate years).getD i dummyEntry
          = { year := i + 1,
              rate := if 10 ≤ i + 1 then round2 terminalRate
                else round2 (max terminalRate
                  (initialRate - (initialRate - terminalRate) / 9 * i)) }) := by
  refine ⟨⟨?_, ?_, ?_, ?_⟩, ?_⟩
  · simp [generateGrowthRates]
  · intro i h
    rw [generateGrowthRates_getD 60 15 20 i h]
  · intro i h
    rw [generateGrowthRates_getD 60 15 20 i (by omega)]
    show round2 (if i + 1 < 10 then max 15 (60 - (60 - 15) / 9 * (i : ℚ)) else 15)
      = 60 - 5 * (i : ℚ)
    rw [if_pos h]
    have hi8 : (i : ℚ) ≤ 8 := by exact_mod_cast (by omega : i ≤ 8)
    have hmax : max (15 : ℚ) (60 - (60 - 15) / 9 * (i : ℚ)) = 60 - 5 * (i : ℚ) := by
      rw [max_eq_right (by linarith)]
      ring
    rw [hmax]
    unfold round2
    have hx : (60 - 5 * (i : ℚ)) * 100 = ((6000 - 500 * (i : ℤ) : ℤ) : ℚ) := by
      push_cast
      ring
    rw [hx, jsRound_intCast]
    push_cast
    ring
  · intro i h _
    rw [generateGrowthRates_getD 60 15 20 i (by omega)]
    show round2 (if i + 1 < 10 then max 15 (60 - (60 - 15) / 9 * (i : ℚ)) else 15) = 15
    rw [if_neg (by omega)]
    norm_num [round2, jsRound]
  · intro initialRate terminalRate years i h
    rw [generateGrowthRates_getD initialRate terminalRate years i h]
    by_cases h10 : i + 1 < 10
    · rw [if_pos h10, if_neg (by omega)]
    · rw [if_neg h10, if_pos (by omega)]

theorem solverLoop_stop (inputs : SimulationInputs) (f : ℕ) (low high opt : ℚ)
    (h : ¬100 < high - low) : solverLoop inputs f low high opt = opt := by
  cases f with
  | zero => rfl
  | succ f =>
    simp only [solverLoop]
    rw [if_neg h]

theorem solverLoop_feasible_invariant (inputs : SimulationInputs) (f : ℕ) :
    ∀ low high opt : ℚ, (opt = 0 ∨ FeasibleAt inputs opt) →
      (solverLoop inputs f low high opt = 0
        ∨ FeasibleAt inputs (solverLoop inputs f low high opt)) := by
  induction f with
  | zero =>
    intro low high opt h
    exact h
  | succ f ih =>
    intro low high opt h
    simp only [solverLoop]
    split_ifs with hc hf
    · exact ih _ _ _ (Or.inr hf)
    · exact ih _ _ _ h
    · exact h

theorem feasibleAt_of_years_eq_zero (inputs : SimulationInputs)
    (h0 : inputs.years = 0) (e : ℚ) : FeasibleAt inputs e := by
  unfold FeasibleAt
  have hnil : calculateProjections { inputs with annualExpenses := e } = [] := by
    unfold calculateProjections
    simp [h0]
  rw [hnil]
  exact bot_le

theorem solverLoop_years_zero_bounds (inputs : SimulationInputs)
    (h0 : inputs.years = 0) :
    ∀ (f : ℕ) (low high opt : ℚ),
      high - low ≤ 100 * 2 ^ f → 100 < high - low →
        high - 100 ≤ solverLoop inputs f low high opt
        ∧ solverLoop inputs f low high opt ≤ high
        ∧ (low + high) / 2 ≤ solverLoop inputs f low high opt := by
  intro f
  induction f with
  | zero =>
    intro low high opt hb hg
    norm_num at hb
    linarith
  | succ f ih =>
    intro low high opt hb hg
    simp only [solverLoop]
    rw [if_pos hg, if_pos (feasibleAt_of_years_eq_zero inputs h0 _)]
    by_cases hg' : 100 < high - (low + high) / 2
    · have hb' : high - (low + high) / 2 ≤ 100 * 2 ^ f := by
        have hhalf : high - (low + high) / 2 = (high - low) / 2 := by ring
        rw [pow_succ] at hb
        rw [hhalf]
        linarith
      obtain ⟨a, b, c⟩ := ih ((low + high) / 2) high ((low + high) / 2) hb' hg'
      refine ⟨a, b, ?_⟩
      have hlh : low ≤ high := by linarith
      linarith
    · rw [solverLoop_stop inputs f _ _ _ hg']
      push_neg at hg'
      exact ⟨by linarith, by linarith, le_refl _⟩

theorem solverFuel_big (inputs : SimulationInputs) :
    inputs.bitcoinPrice * inputs.bitcoinAmount ≤ 100 * 2 ^ solverFuel inputs := by
  have h1 : inputs.bitcoinPrice * inputs.bitcoinAmount / 100
      ≤ (⌈inputs.bitcoinPrice * inputs.bitcoinAmount / 100⌉ : ℚ) := Int.le_ceil _
  have h2 : ((⌈inputs.bitcoinPrice * inputs.bitcoinAmount / 100⌉ : ℤ) : ℚ)
      ≤ ((Int.toNat ⌈inputs.bitcoinPrice * inputs.bitcoinAmount / 100⌉ : ℕ) : ℚ) := by
    exact_mod_cast Int.self_le_toNat _
  have h3 : ∀ n : ℕ, (n : ℚ) ≤ 2 ^ n := by
    intro n
    have hn : (n : ℚ) ≤ ((2 ^ n : ℕ) : ℚ) := by
      exact_mod_cast (Nat.lt_two_pow n).le
    rw [Nat.cast_pow] at hn
    exact_mod_cast hn
  have h4 := h3 (Int.toNat ⌈inputs.bitcoinPrice * inputs.bitcoinAmount / 100⌉)
  unfold solverFuel
  linarith

/-- Claim C1: for valid inputs, the value returned by
`findOptimalAnnualExpenses` is feasible within the search's 100-currency-unit
slack: either it is 0 (in particular whenever the initial portfolio value is
at most 100, the degenerate case in which the loop never runs), or it is
within 100 of an expense level whose projection keeps the maximum emitted
`ltvRatio` at or below `inputs.maxLTV`. -/
theorem findOptimal_feasible_or_zero (inputs : SimulationInputs)
    (hA : 0 < inputs.bitcoinAmount) (hP : 0 < inputs.bitcoinPrice)
    (hY : 1 ≤ inputs.years) (hI : 0 ≤ inputs.interestRate)
    (hF : 0 ≤ inputs.inflationRate) (hM0 : 0 < inputs.maxLTV)
    (hM1 : inputs.maxLTV ≤ 100) :
    (findOptimalAnnualExpenses inputs = 0
      ∨ ∃ e : ℚ,
          maxLtvOfProjections (calculateProjections { inputs with annualExpenses := e })
              ≤ ((inputs.maxLTV : ℚ) : WithBot ℚ)
            ∧ |((findOptimalAnnualExpenses inputs : ℤ) : ℚ) - e| ≤ 100)
    ∧ (inputs.bitcoinPrice * inputs.bitcoinAmount ≤ 100
        → findOptimalAnnualExpenses inputs = 0) := by
  have heff : effMaxLTV inputs = inputs.maxLTV := by
    unfold effMaxLTV
    rw [if_neg (ne_of_gt hM0)]
  constructor
  · have hinv := solverLoop_feasible_invariant inputs (solverFuel inputs) 0
      (inputs.bitcoinPrice * inputs.bitcoinAmount) 0 (Or.inl rfl)
    rcases hinv with h0 | hfe
    · left
      unfold findOptimalAnnualExpenses
      rw [h0]
      exact jsRound_zero
    · right
      refine ⟨solverLoop inputs (solverFuel inputs) 0
        (inputs.bitcoinPrice * inputs.bitcoinAmount) 0, ?_, ?_⟩
      · unfold FeasibleAt at hfe
        rwa [heff] at hfe
      · have hle := jsRound_le (solverLoop inputs (solverFuel inputs) 0
          (inputs.bitcoinPrice * inputs.bitcoinAmount) 0)
        have hgt := jsRound_gt (solverLoop inputs (solverFuel inputs) 0
          (inputs.bitcoinPrice * inputs.bitcoinAmount) 0)
        have hEdef : findOptimalAnnualExpenses inputs
            = jsRound (solverLoop inputs (solverFuel inputs) 0
                (inputs.bitcoinPrice * inputs.bitcoinAmount) 0) := rfl
        rw [hEdef, abs_le]
        constructor <;> linarith
  · intro hle
    unfold findOptimalAnnualExpenses
    rw [solverLoop_stop inputs _ _ _ _ (by rw [sub_zero]; exact not_lt.mpr hle)]
    exact jsRound_zero

/-- Claim C10: with `years = 0` and an initial portfolio value above 100,
the projection sequence is empty, so every candidate is judged feasible
(the maximum over no snapshots is `-Infinity`), the binary search's low
bound converges to the upper bound, and the solver returns a positive value
within 100 currency units (plus final rounding) of the full initial
portfolio value, not 0. -/
theorem findOptimal_years_zero_near_portfolio (inputs : SimulationInputs)
    (h0 : inputs.years = 0)
    (hP : 100 < inputs.bitcoinPrice * inputs.bitcoinAmount) :
    |((findOptimalAnnualExpenses inputs : ℤ) : ℚ)
        - inputs.bitcoinPrice * inputs.bitcoinAmount| ≤ 201 / 2
    ∧ 0 < findOptimalAnnualExpenses inputs := by
  have hb : inputs.bitcoinPrice * inputs.bitcoinAmount - 0
      ≤ 100 * 2 ^ solverFuel inputs := by
    rw [sub_zero]
    exact solverFuel_big inputs
  have hg : (100 : ℚ) < inputs.bitcoinPrice * inputs.bitcoinAmount - 0 := by
    rwa [sub_zero]
  obtain ⟨a, b, c⟩ := solverLoop_years_zero_bounds inputs h0 (solverFuel inputs) 0
    (inputs.bitcoinPrice * inputs.bitcoinAmount) 0 hb hg
  have hle := jsRound_le (solverLoop inputs (solverFuel inputs) 0
    (inputs.bitcoinPrice * inputs.bitcoinAmount) 0)
  have hgt := jsRound_gt (solverLoop inputs (solverFuel inputs) 0
    (inputs.bitcoinPrice * inputs.bitcoinAmount) 0)
  have hEdef : findOptimalAnnualExpenses inputs
      = jsRound (solverLoop inputs (solverFuel inputs) 0
          (inputs.bitcoinPrice * inputs.bitcoinAmount) 0) := rfl
  constructor
  · rw [hEdef, abs_le]
    constructor <;> linarith
  · have hq : (0 : ℚ) < ((findOptimalAnnualExpenses inputs : ℤ) : ℚ) := by
      rw [hEdef]
      linarith
    exact_mod_cast hq

/-- Claim C9: when `initialRate ≤ terminalRate` (in particular when
`initialRate < terminalRate` or the two are equal), every entry of the
generated schedule carries the same constant rate `terminalRate` (rounded to
two decimals) from year 1 on: the `max` clamp collapses an upward-growth
request to a constant schedule. -/
theorem schedule_constant_when_initial_le_terminal (initialRate terminalRate : ℚ)
    (years : ℕ) (h : initialRate ≤ terminalRate) :
    ∀ e ∈ generateGrowthRates initialRate terminalRate years,
      e.rate = round2 terminalRate := by
  intro e he
  unfold generateGrowthRates at he
  rw [List.mem_map] at he
  obtain ⟨i, hi, rfl⟩ := he
  show round2 (if i + 1 < 10 then
      max terminalRate (initialRate - (initialRate - terminalRate) / 9 * (((i + 1 : ℕ) : ℚ) - 1))
    else terminalRate) = round2 terminalRate
  by_cases h10 : i + 1 < 10
  · rw [if_pos h10]
    have hi' : ((i + 1 : ℕ) : ℚ) - 1 = (i : ℚ) := by push_cast; ring
    rw [hi']
    have hi8 : (i : ℚ) ≤ 8 := by exact_mod_cast (by omega : i ≤ 8)
    have hle : initialRate - (initialRate - terminalRate) / 9 * (i : ℚ) ≤ terminalRate := by
      nlinarith [mul_nonneg (sub_nonneg.mpr h) (show (0 : ℚ) ≤ 9 - (i : ℚ) by linarith)]
    rw [max_eq_left hle]
  · rw [if_neg h10]

/-- Claim C7 (amended): the code performs no input validation and has no
error channel at all: `calculateProjections` is total and returns a full
sequence of `inputs.years` snapshots for every input, including inputs that
violate the stated domain constraints; when `bitcoinAmount = 0` every
year's LTV denominator `price × bitcoinAmount` is 0 and the division is
performed unguarded (in JavaScript the `ltvRatio` becomes
`Infinity`/`NaN`), rather than failing with a labeled error. -/
theorem projections_no_validation (inputs : SimulationInputs) :
    (calculateProjections inputs).length = inputs.years
    ∧ (inputs.bitcoinAmount = 0 → ∀ i : ℕ,
        (projStates inputs i).bitcoinValue * inputs.bitcoinAmount = 0) := by
  constructor
  · simp [calculateProjections]
  · intro h0 i
    rw [h0, mul_zero]

/-- Claim C7 counterexample: at inputs with `bitcoinAmount = 0` (which the
claim says must fail fast with `InvalidArgument`), the projection engine
returns a normal 1-element snapshot sequence, reaching the LTV division with
a zero denominator and emitting an ordinary-looking `totalDebt`. -/
theorem projections_no_error_at_invalid_input :
    (calculateProjections invalidInputs).length = 1
    ∧ (projStates invalidInputs 0).bitcoinValue * invalidInputs.bitcoinAmount = 0
    ∧ ((calculateProjections invalidInputs).getD 0 dummySnap).totalDebt = 1000 := by
  refine ⟨by simp [calculateProjections, invalidInputs], by norm_num [projStates, invalidInputs], ?_⟩
  rw [calculateProjections_getD invalidInputs 0 dummySnap (by norm_num [invalidInputs])]
  simp only [projStep, projStates, invalidInputs]
  norm_num [jsRound]

/-- Claim C8 (amended): during projection, the growth rate used for year
`i + 1` is the rate of the first schedule entry whose `year` equals `i + 1`
whenever such an entry exists with a nonzero rate; the fallback to the last
entry's rate is used not only when no entry matches but also when the
matching entry's rate is 0 (the JS `||` treats a found rate of 0 as falsy). -/
theorem growthRate_lookup_amended (inputs : SimulationInputs) (i : ℕ)
    (d : YearSnapshot) (h : i < inputs.years) (e : GrowthEntry)
    (hfind : List.find? (fun g => g.year == i + 1) inputs.growthRates = some e) :
    (e.rate ≠ 0 → ((calculateProjections inputs).getD i d).growthRate = e.rate)
    ∧ (e.rate = 0 → ((calculateProjections inputs).getD i d).growthRate
        = lastRateD inputs.growthRates) := by
  rw [calculateProjections_getD inputs i d h]
  have hgr : ((projStep inputs (i + 1) (projStates inputs i)).2).growthRate
      = lookupGrowthRate inputs.growthRates (i + 1) := rfl
  rw [hgr]
  have hlook : lookupGrowthRate inputs.growthRates (i + 1)
      = if e.rate = 0 then lastRateD inputs.growthRates else e.rate := by
    unfold lookupGrowthRate
    rw [hfind]
  rw [hlook]
  constructor
  · intro hne
    rw [if_neg hne]
  · intro hz
    rw [if_pos hz]

/-- Claim C8 counterexample: the schedule of `zeroRateScheduleInputs` has an
entry with `year = 1` (rate 0), yet the projection's first year uses the
last entry's rate 50, not 0 — the fallback fires even though a matching
entry exists. -/
theorem growthRate_zero_entry_falls_back :
    List.find? (fun g => g.year == 1) zeroRateScheduleInputs.growthRates
        = some { year := 1, rate := 0 }
    ∧ ((calculateProjections zeroRateScheduleInputs).getD 0 dummySnap).growthRate = 50 := by
  constructor
  · rfl
  · rw [calculateProjections_getD zeroRateScheduleInputs 0 dummySnap
      (by norm_num [zeroRateScheduleInputs])]
    rfl

theorem findOptimal_feasible_or_zero_witness :
    findOptimalAnnualExpenses smallPortfolioInputs = 0 :=
  (findOptimal_feasible_or_zero smallPortfolioInputs
    (by norm_num [smallPortfolioInputs]) (by norm_num [smallPortfolioInputs])
    (by norm_num [smallPortfolioInputs]) (by norm_num [smallPortfolioInputs])
    (by norm_num [smallPortfolioInputs]) (by norm_num [smallPortfolioInputs])
    (by norm_num [smallPortfolioInputs])).2 (by norm_num [smallPortfolioInputs])

theorem snapshot_price_and_ltv_fields_witness :
    ((calculateProjections validInputs).getD 0 dummySnap).bitcoinPriceEnd
        = jsRound ((projStates validInputs 0).bitcoinValue
            * (1 + lookupGrowthRate validInputs.growthRates (0 + 1) / 100))
    ∧ ((calculateProjections validInputs).getD 0 dummySnap).portfolioValue
        = jsRound ((projStates validInputs 0).bitcoinValue
            * (1 + lookupGrowthRate validInputs.growthRates (0 + 1) / 100)
            * validInputs.bitcoinAmount)
    ∧ YearSnapshot.ltvRatio ((calculateProjections validInputs).getD 0 dummySnap)
        = jsRound ((((projStates validInputs 0).totalBorrowed
                + (projStates validInputs 0).inflatedExpenses)
              + ((projStates validInputs 0).totalInterest
                + (projStates validInputs 0).totalBorrowed * (validInputs.interestRate / 100)))
            / ((projStates validInputs 0).bitcoinValue * validInputs.bitcoinAmount) * 100) :=
  snapshot_price_and_ltv_fields validInputs 0 dummySnap (by norm_num [validInputs])

theorem interest_accrues_before_borrowing_witness :
    ((calculateProjections validInputs).getD 0 dummySnap).totalInterest = 0 :=
  (interest_accrues_before_borrowing validInputs dummySnap
    (by norm_num [validInputs])).2

theorem debt_networth_identities_rounded_witness :
    |((projStep validInputs 1 (projStates validInputs 0)).2).totalDebt
        - (((projStep validInputs 1 (projStates validInputs 0)).2).totalBorrowed
          + ((projStep validInputs 1 (projStates validInputs 0)).2).totalInterest)| ≤ 1
    ∧ |((projStep validInputs 1 (projStates validInputs 0)).2).netWorth
        - (((projStep validInputs 1 (projStates validInputs 0)).2).portfolioValue
          - ((projStep validInputs 1 (projStates validInputs 0)).2).totalDebt)| ≤ 1 := by
  have hm : (projStep validInputs 1 (projStates validInputs 0)).2
      ∈ calculateProjections validInputs := by
    unfold calculateProjections
    rw [List.mem_map]
    exact ⟨0, by norm_num [validInputs, List.mem_range], rfl⟩
  exact debt_networth_identities_rounded validInputs _ hm

theorem borrowed_interest_monotone_witness :
    ((calculateProjections validInputs2).getD 0 dummySnap).totalBorrowed
        ≤ ((calculateProjections validInputs2).getD (0 + 1) dummySnap).totalBorrowed
    ∧ ((calculateProjections validInputs2).getD 0 dummySnap).totalInterest
        ≤ ((calculateProjections validInputs2).getD (0 + 1) dummySnap).totalInterest :=
  borrowed_interest_monotone validInputs2 (by norm_num [validInputs2])
    (by norm_num [validInputs2]) (by norm_num [validInputs2]) 0 dummySnap
    (by norm_num [validInputs2])

theorem growth_schedule_correct_witness :
    ((generateGrowthRates 60 15 20).getD 0 dummyEntry).rate = 60 - 5 * ((0 : ℕ) : ℚ) :=
  growth_schedule_correct.1.2.2.1 0 (by norm_num)

theorem projections_no_validation_witness :
    (projStates invalidInputs 1).bitcoinValue * invalidInputs.bitcoinAmount = 0 :=
  (projections_no_validation invalidInputs).2 rfl 1

theorem growthRate_lookup_amended_witness :
    ((calculateProjections validInputs).getD 0 dummySnap).growthRate = 10 :=
  (growthRate_lookup_amended validInputs 0 dummySnap (by norm_num [validInputs])
    { year := 1, rate := 10 } rfl).1 (by norm_num)

theorem schedule_constant_when_initial_le_terminal_witness :
    ({ year := 1, rate := (20 : ℚ) } : GrowthEntry).rate = round2 20 := by
  have hmem : ({ year := 1, rate := (20 : ℚ) } : GrowthEntry)
      ∈ generateGrowthRates 10 20 3 := by
    unfold generateGrowthRates
    rw [List.mem_map]
    refine ⟨0, by norm_num, ?_⟩
    norm_num [round2, jsRound, GrowthEntry.mk.injEq]
  exact schedule_constant_when_initial_le_terminal 10 20 3 (by norm_num) _ hmem

theorem findOptimal_years_zero_near_portfolio_witness :
    |((findOptimalAnnualExpenses emptyHorizonInputs : ℤ) : ℚ)
        - emptyHorizonInputs.bitcoinPrice * emptyHorizonInputs.bitcoinAmount| ≤ 201 / 2
    ∧ 0 < findOptimalAnnualExpenses emptyHorizonInputs :=
  findOptimal_years_zero_near_portfolio emptyHorizonInputs rfl
    (by norm_num [emptyHorizonInputs])
